import Mathlib

/-!
Verification of the pyfov adapter (src/fov/fov.c), a CPython extension module
wrapping the external libfov field-of-view library.

The adapter code under src/ is embedded directly: the `pyfov_Settings` object,
the two callback trampolines `_pyfov_opacity_test_function` and
`_pyfov_apply_lighting_function`, the `map_wrapper` with its `threw_exception`
flag, argument parsing for `Settings.circle` and `Settings.beam`, and the
getset (property) table.

The libfov computational core (`fov_circle`, `fov_beam`, `fov_settings_init`)
is not part of the repository sources; where a claim depends on it, the
relevant behaviour is modelled from the specification and marked
`Modelled from the spec:` in the doc comment.  In particular the engine's cell
visitation order is abstracted as an arbitrary list of sweep events: for every
sequence of opacity queries and lighting applications the engine may issue,
the theorems describe what the adapter does.
-/

/-- A Python object as the adapter observes it: the `None` singleton, an
integer, or some other object identified by an opaque tag.  Reference counting
is not modelled; objects are compared by identity/value. -/
inductive PyObj where
  | none
  | int (n : Int)
  | obj (id : Nat)
  deriving DecidableEq, Repr

/-- Result of invoking a Python callable via `PyObject_CallObject`: either an
exception was raised (the C code sees a NULL result and the exception becomes
the pending thread-state exception) or a value was returned. -/
inductive PyResult where
  | exn (e : PyObj)
  | val (v : PyObj)
  deriving DecidableEq, Repr

/-- Semantics of the Python interpreter for calling a callable object on an
argument tuple (the behaviour of `PyObject_CallObject`).  Supplied as a
parameter: the adapter is verified for every interpreter behaviour. -/
def Interp : Type := PyObj → List PyObj → PyResult

/-- fov_shape_type constants re-exported by the module (fov.c lines 307-314). -/
inductive FovShape where
  | circle_precalculate
  | square
  | circle
  | octagon
  deriving DecidableEq, Repr

/-- fov_corner_peek_type constants (fov.c lines 317-318). -/
inductive FovCornerPeek where
  | nopeek
  | peek
  deriving DecidableEq, Repr

/-- fov_opaque_apply_type constants (fov.c lines 321-322); named FovOpaqApply
here, with constructors apply / noapply. -/
inductive FovOpaqApply where
  | apply
  | noapply
  deriving DecidableEq, Repr

/-- The fields of the C `fov_settings_type` that the specification exposes
(shape, corner peek policy, apply-to-blocking-cells policy).  The two function
pointers of the C struct are always the fixed trampolines and are represented
by the trampoline definitions below. -/
structure fov_settings_type where
  shape : FovShape
  corner_peek : FovCornerPeek
  opaq_apply : FovOpaqApply
  deriving DecidableEq, Repr

/-- Modelled from the spec: `fov_settings_init` lives in the external libfov
library (only declared in fov/fov.h); per the specification it initialises
shape = CIRCLE, corner_peek = NOPEEK, opaque_apply = NOAPPLY. -/
def fov_settings_init : fov_settings_type :=
  { shape := FovShape.circle,
    corner_peek := FovCornerPeek.nopeek,
    opaq_apply := FovOpaqApply.noapply }

/-- The `pyfov_Settings` Python object (fov.c lines 31-49): the embedded C
settings plus the two stored Python callback references. -/
structure pyfov_Settings where
  settings : fov_settings_type
  opacity_test_function : PyObj
  apply_lighting_function : PyObj
  deriving DecidableEq, Repr

/-- `pyfov_Settings_init` (fov.c lines 70-93): both callback slots are set to
`Py_None` and the embedded settings are initialised by `fov_settings_init`
(the trampolines are then installed; they are the fixed functions below). -/
def pyfov_Settings_init : pyfov_Settings :=
  { settings := fov_settings_init,
    opacity_test_function := PyObj.none,
    apply_lighting_function := PyObj.none }

/-- `pyfov_Settings_get_opacity_test_function` (fov.c lines 106-110). -/
def pyfov_Settings_get_opacity_test_function (self : pyfov_Settings) : PyObj :=
  self.opacity_test_function

/-- `pyfov_Settings_set_opacity_test_function` (fov.c lines 112-117): replaces
the stored reference with the supplied object (ASSIGN_REFS). -/
def pyfov_Settings_set_opacity_test_function (self : pyfov_Settings)
    (cb : PyObj) : pyfov_Settings :=
  { self with opacity_test_function := cb }

/-- The getset table `pyfov_Settings_properties` (fov.c lines 119-126): the
names of the properties it defines.  It contains exactly one entry,
"opacity_test_function"; no property for the lighting callback is registered. -/
def pyfov_Settings_properties : List String :=
  ["opacity_test_function"]

/-- Attribute assignment on a `Settings` instance.  The type uses
`PyType_GenericNew`, declares no `tp_setattro` and no instance dictionary, so
only names in the getset table are assignable; any other name raises
`AttributeError`, modelled as `Option.none`. -/
def settingsSetAttr (self : pyfov_Settings) (attr : String) (v : PyObj) :
    Option pyfov_Settings :=
  if attr = "opacity_test_function" then
    Option.some (pyfov_Settings_set_opacity_test_function self v)
  else
    Option.none

/-- `PyInt_AsLong` as the adapter uses its result: a Python int converts to
its value; any other object makes `PyInt_AsLong` return the error value -1
(setting a TypeError the adapter never checks). -/
def PyInt_AsLong : PyObj → Int
  | PyObj.int n => n
  | _ => (-1)

/-- The `map_wrapper` struct (fov.c lines 56-60): the caller's map object, a
pointer to the Settings object, and the `threw_exception` flag. -/
structure map_wrapper where
  orig_map : PyObj
  settings : pyfov_Settings
  threw_exception : Bool
  deriving DecidableEq, Repr

/-- Record of one Python callback invocation actually performed by a
trampoline: the callable, the exact argument tuple, and the outcome. -/
structure CallRecord where
  callee : PyObj
  args : List PyObj
  result : PyResult
  deriving DecidableEq, Repr

/-- State threaded through a sweep: the stack-allocated `map_wrapper`, the
interpreter's pending exception (CPython thread state), and the trace of
callback invocations made so far (a history variable for specification). -/
structure SweepState where
  wrap : map_wrapper
  pending : Option PyObj
  trace : List CallRecord
  deriving DecidableEq, Repr

/-- One visitation step issued by the external libfov engine: either an
opacity query for a cell or a lighting application for a cell. -/
inductive SweepEvent where
  | opacity (x y : Int)
  | lighting (x y dx dy : Int)
  deriving DecidableEq, Repr

/-- `_pyfov_opacity_test_function` (fov.c lines 199-232): if no user callback
is set (slot holds `Py_None`) answer `false` (transparent) without calling
anything; otherwise call the stored callback with the tuple
`(orig_map, x, y)`.  A raised exception sets `threw_exception` and answers
`false`; a returned value is converted with `(bool)PyInt_AsLong`. -/
def _pyfov_opacity_test_function (call : Interp) (st : SweepState)
    (x y : Int) : Bool × SweepState :=
  if st.wrap.settings.opacity_test_function = PyObj.none then
    (false, st)
  else
    match call st.wrap.settings.opacity_test_function
        [st.wrap.orig_map, PyObj.int x, PyObj.int y] with
    | PyResult.exn e =>
        (false,
          { wrap := { st.wrap with threw_exception := true },
            pending := Option.some e,
            trace := st.trace ++
              [{ callee := st.wrap.settings.opacity_test_function,
                 args := [st.wrap.orig_map, PyObj.int x, PyObj.int y],
                 result := PyResult.exn e }] })
    | PyResult.val r =>
        (PyInt_AsLong r != 0,
          { st with trace := st.trace ++
              [{ callee := st.wrap.settings.opacity_test_function,
                 args := [st.wrap.orig_map, PyObj.int x, PyObj.int y],
                 result := PyResult.val r }] })

/-- `_pyfov_apply_lighting_function` (fov.c lines 234-266): if no user
callback is set, a no-op; otherwise call the stored callback with the tuple
`(orig_map, x, y, dx, dy, src)`.  A raised exception sets `threw_exception`;
a returned value is discarded. -/
def _pyfov_apply_lighting_function (call : Interp) (st : SweepState)
    (x y dx dy : Int) (src : PyObj) : SweepState :=
  if st.wrap.settings.apply_lighting_function = PyObj.none then
    st
  else
    match call st.wrap.settings.apply_lighting_function
        [st.wrap.orig_map, PyObj.int x, PyObj.int y,
         PyObj.int dx, PyObj.int dy, src] with
    | PyResult.exn e =>
        { wrap := { st.wrap with threw_exception := true },
          pending := Option.some e,
          trace := st.trace ++
            [{ callee := st.wrap.settings.apply_lighting_function,
               args := [st.wrap.orig_map, PyObj.int x, PyObj.int y,
                        PyObj.int dx, PyObj.int dy, src],
               result := PyResult.exn e }] }
    | PyResult.val r =>
        { st with trace := st.trace ++
            [{ callee := st.wrap.settings.apply_lighting_function,
               args := [st.wrap.orig_map, PyObj.int x, PyObj.int y,
                        PyObj.int dx, PyObj.int dy, src],
               result := PyResult.val r }] }

/-- Modelled from the spec: the external libfov engine (`fov_circle` /
`fov_beam`) issues some sequence of opacity queries and lighting
applications.  The engine has no channel by which it could observe the
adapter's `threw_exception` flag (the opacity trampoline merely answers
`false` after a fault), so it processes its visitation sequence to the end;
`runSweep` folds the two trampolines from src over that sequence. -/
def runSweep (call : Interp) (src : PyObj) (st : SweepState) :
    List SweepEvent → SweepState
  | [] => st
  | SweepEvent.opacity x y :: rest =>
      runSweep call src (_pyfov_opacity_test_function call st x y).2 rest
  | SweepEvent.lighting x y dx dy :: rest =>
      runSweep call src
        (_pyfov_apply_lighting_function call st x y dx dy src) rest

/-- The sweep state at entry of `circle`/`beam`: the stack `map_wrapper` is
initialised with the caller's map, the Settings object, and
`threw_exception = false` (fov.c lines 145-148 / 175-178); no exception is
pending and no callback has been invoked. -/
def initState (self : pyfov_Settings) (m : PyObj) : SweepState :=
  { wrap := { orig_map := m, settings := self, threw_exception := false },
    pending := Option.none,
    trace := [] }

/-- Return value of the `circle`/`beam` CPython methods: `Py_None` on
success, or NULL (constructor `err`) with the pending thread-state exception
propagated to the caller unchanged.  Argument-parsing failures also return
NULL; their exception (TypeError/OverflowError from `PyArg_ParseTuple`) is
not a callback exception and is modelled as `err Option.none`. -/
inductive PyRet where
  | py_none
  | err (e : Option PyObj)
  deriving DecidableEq, Repr

/-- Common tail of `pyfov_Settings_circle` and `pyfov_Settings_beam` after
argument parsing (their bodies are line-for-line identical): build the wrap,
run the libfov sweep, then return NULL (propagating the pending exception)
if `wrap.threw_exception` was set, else `Py_None`. -/
def sweepReturn (call : Interp) (self : pyfov_Settings) (m s : PyObj)
    (plan : List SweepEvent) : PyRet × SweepState :=
  (if (runSweep call s (initState self m) plan).wrap.threw_exception then
     PyRet.err (runSweep call s (initState self m) plan).pending
   else
     PyRet.py_none,
   runSweep call s (initState self m) plan)

/-- Python-level arguments of `Settings.circle` (format string "OOiiI",
fov.c line 171): two arbitrary objects, two signed ints, one unsigned int.
`radius` holds the Python integer as passed, before conversion. -/
structure CircleArgs where
  map : PyObj
  src : PyObj
  source_x : Int
  source_y : Int
  radius : Int
  deriving DecidableEq, Repr

/-- Python-level arguments of `Settings.beam` (format string "OOiiIIf",
fov.c line 140).  The `angle` float is forwarded to the external engine and
never inspected by the adapter. -/
structure BeamArgs where
  map : PyObj
  src : PyObj
  source_x : Int
  source_y : Int
  radius : Int
  direction : Int
  angle : Float

/-- `PyArg_ParseTuple` conversion for format "i" (C int): fails with
OverflowError outside the 32-bit signed range. -/
def parse_i (n : Int) : Option Int :=
  if (-(2 ^ 31) ≤ n ∧ n < 2 ^ 31) then Option.some n else Option.none

/-- `PyArg_ParseTuple` conversion for format "I" (C unsigned int): the value
is converted with `PyInt_AsUnsignedLongMask`, i.e. reduced modulo 2^32 with
no range or sign check whatsoever — a negative value is silently wrapped. -/
def parse_I (n : Int) : Int :=
  n % 2 ^ 32

/-- Argument parsing of `Settings.circle` ("OOiiI"): the two "O" objects are
passed through unconverted, the source coordinates are range-checked 32-bit
ints, the radius is masked to an unsigned int. -/
def parseCircleArgs (a : CircleArgs) : Option (Int × Int × Int) :=
  match parse_i a.source_x, parse_i a.source_y with
  | Option.some sx, Option.some sy => Option.some (sx, sy, parse_I a.radius)
  | _, _ => Option.none

/-- Argument parsing of `Settings.beam` ("OOiiIIf"): as for circle, with the
direction also masked as an unsigned int; the float conversion of `angle`
never fails for a float argument. -/
def parseBeamArgs (b : BeamArgs) : Option (Int × Int × Int × Int) :=
  match parse_i b.source_x, parse_i b.source_y with
  | Option.some sx, Option.some sy =>
      Option.some (sx, sy, parse_I b.radius, parse_I b.direction)
  | _, _ => Option.none

/-- `pyfov_Settings_circle` (fov.c lines 164-188): parse the arguments
(returning NULL on parse failure), initialise the wrap, run `fov_circle`
(whose visitation is the abstract `plan`), then return NULL if and only if
`wrap.threw_exception` was set, else `Py_None`.  The final sweep state is
returned alongside so that frame conditions can be stated; in the C code it
is a stack local that dies at return. -/
def pyfov_Settings_circle (call : Interp) (self : pyfov_Settings)
    (a : CircleArgs) (plan : List SweepEvent) : PyRet × SweepState :=
  match parseCircleArgs a with
  | Option.none => (PyRet.err Option.none, initState self a.map)
  | Option.some _ => sweepReturn call self a.map a.src plan

/-- `pyfov_Settings_beam` (fov.c lines 131-159): identical to circle after
parsing its two extra arguments. -/
def pyfov_Settings_beam (call : Interp) (self : pyfov_Settings)
    (b : BeamArgs) (plan : List SweepEvent) : PyRet × SweepState :=
  match parseBeamArgs b with
  | Option.none => (PyRet.err Option.none, initState self b.map)
  | Option.some _ => sweepReturn call self b.map b.src plan

/-- Chebyshev distance of an offset from the origin (spec section 4.2). -/
def cheb (dx dy : Int) : Nat :=
  max dx.natAbs dy.natAbs

/-- Rounded division a/n to the nearest integer, used by the incremental
sightline below. -/
def rdiv (a : Int) (n : Nat) : Int :=
  (2 * a + n) / (2 * (n : Int))

/-- Modelled from the spec: the strictly-closer cells on the sightline from
the origin to the offset `(dx, dy)` (spec 4.2 step 2, "Bresenham-like
incremental slope tracking"): for each step k = 1 .. n-1 with n the Chebyshev
distance, the rounded interpolation point.  Empty for the origin itself. -/
def sightline (dx dy : Int) : List (Int × Int) :=
  ((List.range (cheb dx dy)).drop 1).map
    (fun k => (rdiv ((k : Int) * dx) (cheb dx dy),
               rdiv ((k : Int) * dy) (cheb dx dy)))

/-- The full cell path from the origin to the offset, endpoints included. -/
def pathCells (dx dy : Int) : List (Int × Int) :=
  (0, 0) :: (sightline dx dy ++ [(dx, dy)])

/-- Consecutive pairs of a list. -/
def zipPairs (l : List (Int × Int)) : List ((Int × Int) × (Int × Int)) :=
  l.zip l.tail

/-- Modelled from the spec: the NOPEEK corner rule — a diagonal step along
the sightline is blocked when both orthogonally-adjacent cells forming the
corner are blocking; under PEEK vision leaks around such corners. -/
def cornerBlocked (peekPolicy : FovCornerPeek) (opacityAt : Int → Int → Bool)
    (ox oy dx dy : Int) : Bool :=
  match peekPolicy with
  | FovCornerPeek.peek => false
  | FovCornerPeek.nopeek =>
      (zipPairs (pathCells dx dy)).any (fun pq =>
        pq.1.1 != pq.2.1 && pq.1.2 != pq.2.2 &&
        opacityAt (ox + pq.1.1) (oy + pq.2.2) &&
        opacityAt (ox + pq.2.1) (oy + pq.1.2))

/-- Modelled from the spec: the per-shape radius boundary test (spec 4.2
step 1).  SQUARE: Chebyshev ≤ r; CIRCLE (and its precalculated variant):
Euclidean ≤ r + 0.5a, in exact integer form dx²+dy² ≤ r²+r; OCTAGON:
Chebyshev plus a half-diagonal correction term. -/
def inRadius (shape : FovShape) (r : Nat) (dx dy : Int) : Bool :=
  match shape with
  | FovShape.square => cheb dx dy ≤ r
  | FovShape.circle => dx * dx + dy * dy ≤ (r : Int) * r + r
  | FovShape.circle_precalculate => dx * dx + dy * dy ≤ (r : Int) * r + r
  | FovShape.octagon =>
      2 * (cheb dx dy : Int) + (min dx.natAbs dy.natAbs : Int) ≤ 2 * r + 1

/-- Modelled from the spec: a cell passes the line-of-sight test when no
strictly-closer cell on its sightline is blocking. -/
def visibleCell (opacityAt : Int → Int → Bool) (ox oy x y : Int) : Bool :=
  (sightline (x - ox) (y - oy)).all
    (fun p => !opacityAt (ox + p.1) (oy + p.2))

/-- Modelled from the spec: `fov_circle` (external libfov) classifies a cell
visible when it lies inside the shape boundary for the radius, its sightline
is unobstructed, and no NOPEEK corner on the sightline blocks it.  The cell's
own opacity plays no role in its own classification (it only governs whether
lighting is applied to it, via opaque_apply). -/
def circleVisible (s : fov_settings_type) (opacityAt : Int → Int → Bool)
    (r : Nat) (ox oy x y : Int) : Bool :=
  inRadius s.shape r (x - ox) (y - oy) &&
  visibleCell opacityAt ox oy x y &&
  !cornerBlocked s.corner_peek opacityAt ox oy (x - ox) (y - oy)

/-- Whether a callback invocation outcome was a raised exception. -/
def isExnB : PyResult → Bool
  | PyResult.exn _ => true
  | PyResult.val _ => false

/-- Whether some recorded callback invocation raised. -/
def hasExn (l : List CallRecord) : Bool :=
  l.any (fun c => isExnB c.result)

/-- Invariant tying the `threw_exception` flag to the pending exception: when
the flag is set, the pending exception is one raised, unchanged, by some
recorded callback invocation. -/
def PendingInv (st : SweepState) : Prop :=
  st.wrap.threw_exception = true →
    ∃ e, st.pending = Option.some e ∧
      ∃ c ∈ st.trace, c.result = PyResult.exn e

/-- Shape of an argument tuple the trampolines may build: exactly
`(map, x, y)` for the opacity callback and `(map, x, y, dx, dy, src)` for the
lighting callback, with the caller's map and source objects verbatim. -/
def goodRecord (m s opacF lightF : PyObj) (c : CallRecord) : Prop :=
  (c.callee = opacF ∧ ∃ x y : Int, c.args = [m, PyObj.int x, PyObj.int y]) ∨
  (c.callee = lightF ∧ ∃ x y dx dy : Int,
    c.args = [m, PyObj.int x, PyObj.int y, PyObj.int dx, PyObj.int dy, s])

/-- An interpreter in which every call returns the integer 0. -/
def constCall : Interp :=
  fun _ _ => PyResult.val (PyObj.int 0)

/-- An interpreter in which every call returns a non-integer object. -/
def constObjCall : Interp :=
  fun _ _ => PyResult.val (PyObj.obj 7)

/-- A Settings instance with an opacity callback installed (object #1) and no
lighting callback. -/
def demoSettings : pyfov_Settings :=
  { settings := fov_settings_init,
    opacity_test_function := PyObj.obj 1,
    apply_lighting_function := PyObj.none }

/-- An interpreter in which the callback raises exception object #9 when
asked about cell (1, 0) and returns 0 (transparent) elsewhere. -/
def demoCall : Interp :=
  fun _ args =>
    match args with
    | [_, PyObj.int 1, PyObj.int 0] => PyResult.exn (PyObj.obj 9)
    | _ => PyResult.val (PyObj.int 0)

/-- Concrete circle arguments: map object #2, source object #3, origin (0,0),
radius 2. -/
def demoArgs : CircleArgs :=
  { map := PyObj.obj 2, src := PyObj.obj 3,
    source_x := 0, source_y := 0, radius := 2 }

/-- A two-cell visitation by the engine: query (1,0), then query (2,0). -/
def demoPlan : List SweepEvent :=
  [SweepEvent.opacity 1 0, SweepEvent.opacity 2 0]

/-- Concrete beam arguments matching `demoArgs`. -/
def demoBeamArgs : BeamArgs :=
  { map := PyObj.obj 2, src := PyObj.obj 3,
    source_x := 0, source_y := 0, radius := 2,
    direction := 0, angle := 0 }

theorem opacity_step_fields (call : Interp) (st : SweepState) (x y : Int) :
    ((_pyfov_opacity_test_function call st x y).2).wrap.settings
        = st.wrap.settings ∧
    ((_pyfov_opacity_test_function call st x y).2).wrap.orig_map
        = st.wrap.orig_map ∧
    ((_pyfov_opacity_test_function call st x y).2).wrap.threw_exception
        = (st.wrap.threw_exception
            || hasExn (((_pyfov_opacity_test_function call st x y).2).trace.drop
                st.trace.length)) := by
  unfold _pyfov_opacity_test_function
  by_cases h : st.wrap.settings.opacity_test_function = PyObj.none
  · simp [h, hasExn]
  · rw [if_neg h]
    cases hc : call st.wrap.settings.opacity_test_function
        [st.wrap.orig_map, PyObj.int x, PyObj.int y] <;>
      simp [hasExn, isExnB]

theorem opacity_step_cases (call : Interp) (st : SweepState) (x y : Int) :
    ((_pyfov_opacity_test_function call st x y).2).wrap.settings
        = st.wrap.settings ∧
    ((_pyfov_opacity_test_function call st x y).2).wrap.orig_map
        = st.wrap.orig_map ∧
    ((_pyfov_opacity_test_function call st x y).2 = st ∨
      ∃ c : CallRecord,
        ((_pyfov_opacity_test_function call st x y).2).trace
            = st.trace ++ [c] ∧
        c.callee = st.wrap.settings.opacity_test_function ∧
        c.args = [st.wrap.orig_map, PyObj.int x, PyObj.int y] ∧
        ((∃ e, c.result = PyResult.exn e ∧
            ((_pyfov_opacity_test_function call st x y).2).wrap.threw_exception
                = true ∧
            ((_pyfov_opacity_test_function call st x y).2).pending
                = Option.some e) ∨
         (∃ r, c.result = PyResult.val r ∧
            ((_pyfov_opacity_test_function call st x y).2).wrap.threw_exception
                = st.wrap.threw_exception ∧
            ((_pyfov_opacity_test_function call st x y).2).pending
                = st.pending))) := by
  unfold _pyfov_opacity_test_function
  by_cases h : st.wrap.settings.opacity_test_function = PyObj.none
  · simp [h]
  · rw [if_neg h]
    cases hc : call st.wrap.settings.opacity_test_function
        [st.wrap.orig_map, PyObj.int x, PyObj.int y] with
    | exn e =>
        refine ⟨rfl, rfl, Or.inr ⟨_, rfl, rfl, rfl, Or.inl ⟨e, rfl, rfl, rfl⟩⟩⟩
    | val r =>
        refine ⟨rfl, rfl, Or.inr ⟨_, rfl, rfl, rfl, Or.inr ⟨r, rfl, rfl, rfl⟩⟩⟩

theorem lighting_step_cases (call : Interp) (st : SweepState)
    (x y dx dy : Int) (s : PyObj) :
    (_pyfov_apply_lighting_function call st x y dx dy s).wrap.settings
        = st.wrap.settings ∧
    (_pyfov_apply_lighting_function call st x y dx dy s).wrap.orig_map
        = st.wrap.orig_map ∧
    (_pyfov_apply_lighting_function call st x y dx dy s = st ∨
      ∃ c : CallRecord,
        (_pyfov_apply_lighting_function call st x y dx dy s).trace
            = st.trace ++ [c] ∧
        c.callee = st.wrap.settings.apply_lighting_function ∧
        c.args = [st.wrap.orig_map, PyObj.int x, PyObj.int y,
                  PyObj.int dx, PyObj.int dy, s] ∧
        ((∃ e, c.result = PyResult.exn e ∧
            (_pyfov_apply_lighting_function call st x y dx dy s).wrap.threw_exception
                = true ∧
            (_pyfov_apply_lighting_function call st x y dx dy s).pending
                = Option.some e) ∨
         (∃ r, c.result = PyResult.val r ∧
            (_pyfov_apply_lighting_function call st x y dx dy s).wrap.threw_exception
                = st.wrap.threw_exception ∧
            (_pyfov_apply_lighting_function call st x y dx dy s).pending
                = st.pending))) := by
  unfold _pyfov_apply_lighting_function
  by_cases h : st.wrap.settings.apply_lighting_function = PyObj.none
  · simp [h]
  · rw [if_neg h]
    cases hc : call st.wrap.settings.apply_lighting_function
        [st.wrap.orig_map, PyObj.int x, PyObj.int y,
         PyObj.int dx, PyObj.int dy, s] with
    | exn e =>
        refine ⟨rfl, rfl, Or.inr ⟨_, rfl, rfl, rfl, Or.inl ⟨e, rfl, rfl, rfl⟩⟩⟩
    | val r =>
        refine ⟨rfl, rfl, Or.inr ⟨_, rfl, rfl, rfl, Or.inr ⟨r, rfl, rfl, rfl⟩⟩⟩

theorem runSweep_fields (call : Interp) (s : PyObj) (plan : List SweepEvent) :
    ∀ st : SweepState,
      (runSweep call s st plan).wrap.settings = st.wrap.settings ∧
      (runSweep call s st plan).wrap.orig_map = st.wrap.orig_map := by
  induction plan with
  | nil => intro st; exact ⟨rfl, rfl⟩
  | cons ev rest ih =>
      intro st
      cases ev with
      | opacity x y =>
          have h1 := opacity_step_cases call st x y
          have h2 := ih (_pyfov_opacity_test_function call st x y).2
          simp only [runSweep]
          exact ⟨h2.1.trans h1.1, h2.2.trans h1.2.1⟩
      | lighting x y dx dy =>
          have h1 := lighting_step_cases call st x y dx dy s
          have h2 := ih (_pyfov_apply_lighting_function call st x y dx dy s)
          simp only [runSweep]
          exact ⟨h2.1.trans h1.1, h2.2.trans h1.2.1⟩

theorem runSweep_flag (call : Interp) (s : PyObj) (plan : List SweepEvent) :
    ∀ st : SweepState,
      st.wrap.threw_exception = hasExn st.trace →
      (runSweep call s st plan).wrap.threw_exception
          = hasExn (runSweep call s st plan).trace := by
  induction plan with
  | nil => intro st h; exact h
  | cons ev rest ih =>
      intro st h
      cases ev with
      | opacity x y =>
          obtain ⟨_, _, hcases⟩ := opacity_step_cases call st x y
          simp only [runSweep]
          apply ih
          rcases hcases with heq | ⟨c, htr, _, _, hres⟩
          · rw [heq]; exact h
          · rcases hres with ⟨e, hce, hflag, _⟩ | ⟨r, hcr, hflag, _⟩
            · rw [hflag, htr]
              simp [hasExn, isExnB, hce, List.any_append]
            · rw [hflag, htr, h]
              simp [hasExn, isExnB, hcr, List.any_append]
      | lighting x y dx dy =>
          obtain ⟨_, _, hcases⟩ := lighting_step_cases call st x y dx dy s
          simp only [runSweep]
          apply ih
          rcases hcases with heq | ⟨c, htr, _, _, hres⟩
          · rw [heq]; exact h
          · rcases hres with ⟨e, hce, hflag, _⟩ | ⟨r, hcr, hflag, _⟩
            · rw [hflag, htr]
              simp [hasExn, isExnB, hce, List.any_append]
            · rw [hflag, htr, h]
              simp [hasExn, isExnB, hcr, List.any_append]

theorem runSweep_pending (call : Interp) (s : PyObj) (plan : List SweepEvent) :
    ∀ st : SweepState,
      PendingInv st → PendingInv (runSweep call s st plan) := by
  induction plan with
  | nil => intro st h; exact h
  | cons ev rest ih =>
      intro st h
      cases ev with
      | opacity x y =>
          obtain ⟨_, _, hcases⟩ := opacity_step_cases call st x y
          simp only [runSweep]
          apply ih
          rcases hcases with heq | ⟨c, htr, _, _, hres⟩
          · rw [heq]; exact h
          · rcases hres with ⟨e, hce, hflag, hp⟩ | ⟨r, hcr, hflag, hp⟩
            · intro _
              refine ⟨e, hp, c, ?_, hce⟩
              rw [htr]
              exact List.mem_append_right _ (List.mem_singleton.mpr rfl)
            · intro hfl
              rw [hflag] at hfl
              obtain ⟨e, hpe, c', hc', hres'⟩ := h hfl
              refine ⟨e, by rw [hp]; exact hpe, c', ?_, hres'⟩
              rw [htr]
              exact List.mem_append_left _ hc'
      | lighting x y dx dy =>
          obtain ⟨_, _, hcases⟩ := lighting_step_cases call st x y dx dy s
          simp only [runSweep]
          apply ih
          rcases hcases with heq | ⟨c, htr, _, _, hres⟩
          · rw [heq]; exact h
          · rcases hres with ⟨e, hce, hflag, hp⟩ | ⟨r, hcr, hflag, hp⟩
            · intro _
              refine ⟨e, hp, c, ?_, hce⟩
              rw [htr]
              exact List.mem_append_right _ (List.mem_singleton.mpr rfl)
            · intro hfl
              rw [hflag] at hfl
              obtain ⟨e, hpe, c', hc', hres'⟩ := h hfl
              refine ⟨e, by rw [hp]; exact hpe, c', ?_, hres'⟩
              rw [htr]
              exact List.mem_append_left _ hc'

theorem runSweep_good (call : Interp) (s : PyObj) (plan : List SweepEvent)
    (M OP LI : PyObj) :
    ∀ st : SweepState,
      st.wrap.orig_map = M →
      st.wrap.settings.opacity_test_function = OP →
      st.wrap.settings.apply_lighting_function = LI →
      (∀ c ∈ st.trace, goodRecord M s OP LI c) →
      ∀ c ∈ (runSweep call s st plan).trace, goodRecord M s OP LI c := by
  induction plan with
  | nil => intro st _ _ _ h; exact h
  | cons ev rest ih =>
      intro st hM hOP hLI h
      cases ev with
      | opacity x y =>
          obtain ⟨hs, hm, hcases⟩ := opacity_step_cases call st x y
          simp only [runSweep]
          refine ih _ (hm.trans hM) (by rw [hs]; exact hOP)
            (by rw [hs]; exact hLI) ?_
          rcases hcases with heq | ⟨c, htr, hcal, hargs, _⟩
          · rw [heq]; exact h
          · intro c' hc'
            rw [htr] at hc'
            rcases List.mem_append.mp hc' with hin | hone
            · exact h c' hin
            · rw [List.mem_singleton.mp hone]
              exact Or.inl ⟨hcal.trans hOP, x, y, by rw [hargs, hM]⟩
      | lighting x y dx dy =>
          obtain ⟨hs, hm, hcases⟩ := lighting_step_cases call st x y dx dy s
          simp only [runSweep]
          refine ih _ (hm.trans hM) (by rw [hs]; exact hOP)
            (by rw [hs]; exact hLI) ?_
          rcases hcases with heq | ⟨c, htr, hcal, hargs, _⟩
          · rw [heq]; exact h
          · intro c' hc'
            rw [htr] at hc'
            rcases List.mem_append.mp hc' with hin | hone
            · exact h c' hin
            · rw [List.mem_singleton.mp hone]
              exact Or.inr ⟨hcal.trans hLI, x, y, dx, dy, by rw [hargs, hM]⟩

theorem runSweep_unset (call : Interp) (s : PyObj) (plan : List SweepEvent) :
    ∀ st : SweepState,
      st.wrap.settings.opacity_test_function = PyObj.none →
      st.wrap.settings.apply_lighting_function = PyObj.none →
      runSweep call s st plan = st := by
  induction plan with
  | nil => intro st _ _; rfl
  | cons ev rest ih =>
      intro st h1 h2
      cases ev with
      | opacity x y =>
          have hstep : _pyfov_opacity_test_function call st x y = (false, st) := by
            unfold _pyfov_opacity_test_function
            rw [if_pos h1]
          simp only [runSweep, hstep]
          exact ih st h1 h2
      | lighting x y dx dy =>
          have hstep : _pyfov_apply_lighting_function call st x y dx dy s = st := by
            unfold _pyfov_apply_lighting_function
            rw [if_pos h2]
          simp only [runSweep, hstep]
          exact ih st h1 h2

theorem isExnB_iff (p : PyResult) :
    isExnB p = true ↔ ∃ e, p = PyResult.exn e := by
  cases p <;> simp [isExnB]

theorem hasExn_iff (l : List CallRecord) :
    hasExn l = true ↔ ∃ c ∈ l, ∃ e, c.result = PyResult.exn e := by
  simp [hasExn, List.any_eq_true, isExnB_iff]

theorem hasExn_false_iff (l : List CallRecord) :
    hasExn l = false ↔ ∀ c ∈ l, ∀ e, c.result ≠ PyResult.exn e := by
  constructor
  · intro h c hc e hres
    have hx : hasExn l = true := (hasExn_iff l).mpr ⟨c, hc, e, hres⟩
    rw [h] at hx
    exact Bool.noConfusion hx
  · intro h
    cases hx : hasExn l with
    | false => rfl
    | true =>
        obtain ⟨c, hc, e, hres⟩ := (hasExn_iff l).mp hx
        exact absurd hres (h c hc e)

theorem circle_eq_sweepReturn (call : Interp) (self : pyfov_Settings)
    (a : CircleArgs) (plan : List SweepEvent) (v : Int × Int × Int)
    (hv : parseCircleArgs a = Option.some v) :
    pyfov_Settings_circle call self a plan
        = sweepReturn call self a.map a.src plan := by
  unfold pyfov_Settings_circle
  rw [hv]

theorem beam_eq_sweepReturn (call : Interp) (self : pyfov_Settings)
    (b : BeamArgs) (plan : List SweepEvent) (v : Int × Int × Int × Int)
    (hv : parseBeamArgs b = Option.some v) :
    pyfov_Settings_beam call self b plan
        = sweepReturn call self b.map b.src plan := by
  unfold pyfov_Settings_beam
  rw [hv]

theorem sweepReturn_spec (call : Interp) (self : pyfov_Settings) (m s : PyObj)
    (plan : List SweepEvent) :
    ((sweepReturn call self m s plan).1 = PyRet.py_none ↔
      hasExn ((sweepReturn call self m s plan).2).trace = false) ∧
    (∀ o, (sweepReturn call self m s plan).1 = PyRet.err o →
      ∃ e, o = Option.some e ∧
        ∃ c ∈ ((sweepReturn call self m s plan).2).trace,
          c.result = PyResult.exn e) := by
  have hflag := runSweep_flag call s plan (initState self m)
      (by simp [initState, hasExn])
  have hpend := runSweep_pending call s plan (initState self m)
      (by intro h; simp [initState] at h)
  cases hb : (runSweep call s (initState self m) plan).wrap.threw_exception with
  | false =>
      constructor
      · simp [sweepReturn, hb, ← hflag]
      · intro o ho
        simp [sweepReturn, hb] at ho
  | true =>
      constructor
      · simp [sweepReturn, hb, ← hflag]
      · intro o ho
        simp [sweepReturn, hb] at ho
        obtain ⟨e, hpe, c, hc, hres⟩ := hpend hb
        exact ⟨e, by rw [← ho, hpe], c, hc, hres⟩

/-- C1 (code-bug demonstration): the sweep does NOT abort cell visitation
when a callback raises.  At a concrete input — opacity callback installed,
interpreter raising exception #9 on the query for cell (1,0), engine plan
visiting (1,0) then (2,0) — the adapter still performs the second callback
invocation after the faulting one (the trace has two records, the first of
which raised), and the error is reported only when the call returns.  The
comment at fov.c lines 219-222 concedes that execution of additional
callbacks should stop but does not. -/
theorem circle_continues_after_fault :
    (pyfov_Settings_circle demoCall demoSettings demoArgs demoPlan).1
        = PyRet.err (Option.some (PyObj.obj 9)) ∧
    ((pyfov_Settings_circle demoCall demoSettings demoArgs demoPlan).2).trace
        = [{ callee := PyObj.obj 1,
             args := [PyObj.obj 2, PyObj.int 1, PyObj.int 0],
             result := PyResult.exn (PyObj.obj 9) },
           { callee := PyObj.obj 1,
             args := [PyObj.obj 2, PyObj.int 2, PyObj.int 0],
             result := PyResult.val (PyObj.int 0) }] := by
  constructor <;> rfl

/-- C2: a `circle` or `beam` call (with parseable arguments) returns Py_None
iff no opacity-test or lighting-apply invocation raised during the call; and
when it reports failure, the error carries, unchanged, an exception raised by
one of its callback invocations. -/
theorem circle_beam_fail_iff_callback_raised (call : Interp)
    (self : pyfov_Settings) (a : CircleArgs) (b : BeamArgs)
    (planc planb : List SweepEvent)
    (ha : (parseCircleArgs a).isSome = true)
    (hb : (parseBeamArgs b).isSome = true) :
    (((pyfov_Settings_circle call self a planc).1 = PyRet.py_none ↔
        ∀ c ∈ ((pyfov_Settings_circle call self a planc).2).trace,
          ∀ e, c.result ≠ PyResult.exn e) ∧
      (∀ o, (pyfov_Settings_circle call self a planc).1 = PyRet.err o →
        ∃ e, o = Option.some e ∧
          ∃ c ∈ ((pyfov_Settings_circle call self a planc).2).trace,
            c.result = PyResult.exn e)) ∧
    (((pyfov_Settings_beam call self b planb).1 = PyRet.py_none ↔
        ∀ c ∈ ((pyfov_Settings_beam call self b planb).2).trace,
          ∀ e, c.result ≠ PyResult.exn e) ∧
      (∀ o, (pyfov_Settings_beam call self b planb).1 = PyRet.err o →
        ∃ e, o = Option.some e ∧
          ∃ c ∈ ((pyfov_Settings_beam call self b planb).2).trace,
            c.result = PyResult.exn e)) := by
  obtain ⟨v, hv⟩ := Option.isSome_iff_exists.mp ha
  obtain ⟨w, hw⟩ := Option.isSome_iff_exists.mp hb
  rw [circle_eq_sweepReturn call self a planc v hv,
      beam_eq_sweepReturn call self b planb w hw]
  have h1 := sweepReturn_spec call self a.map a.src planc
  have h2 := sweepReturn_spec call self b.map b.src planb
  exact ⟨⟨h1.1.trans (hasExn_false_iff _), h1.2⟩,
         ⟨h2.1.trans (hasExn_false_iff _), h2.2⟩⟩

/-- C2 witness: at the concrete faulting scenario, the failure report is
equivalent to the presence of a raised invocation in the trace. -/
theorem circle_beam_fail_iff_callback_raised_witness :
    (pyfov_Settings_circle demoCall demoSettings demoArgs demoPlan).1
        = PyRet.py_none ↔
      ∀ c ∈ ((pyfov_Settings_circle demoCall demoSettings demoArgs
          demoPlan).2).trace,
        ∀ e, c.result ≠ PyResult.exn e :=
  (circle_beam_fail_iff_callback_raised demoCall demoSettings demoArgs
      demoBeamArgs demoPlan demoPlan (by decide) (by decide)).1.1

/-- C3: over a Settings instance whose capabilities are unset (both slots at
their default Py_None), every opacity-test invocation answers false (fully
transparent) and every lighting-apply invocation is a no-op, no user callback
is ever invoked (the sweep state, including the invocation trace, is
unchanged), and a circle/beam call with parseable arguments succeeds with
Py_None. -/
theorem unset_capabilities_permissive (call : Interp) (self : pyfov_Settings)
    (h1 : self.opacity_test_function = PyObj.none)
    (h2 : self.apply_lighting_function = PyObj.none) :
    (∀ st : SweepState, st.wrap.settings = self →
        ∀ x y : Int,
          _pyfov_opacity_test_function call st x y = (false, st)) ∧
    (∀ st : SweepState, st.wrap.settings = self →
        ∀ x y dx dy : Int, ∀ s : PyObj,
          _pyfov_apply_lighting_function call st x y dx dy s = st) ∧
    (∀ m s : PyObj, ∀ plan : List SweepEvent,
        runSweep call s (initState self m) plan = initState self m) ∧
    (∀ a : CircleArgs, ∀ plan : List SweepEvent,
        (parseCircleArgs a).isSome = true →
        pyfov_Settings_circle call self a plan
            = (PyRet.py_none, initState self a.map)) ∧
    (∀ b : BeamArgs, ∀ plan : List SweepEvent,
        (parseBeamArgs b).isSome = true →
        pyfov_Settings_beam call self b plan
            = (PyRet.py_none, initState self b.map)) := by
  have hop : ∀ st : SweepState, st.wrap.settings = self →
      ∀ x y : Int, _pyfov_opacity_test_function call st x y = (false, st) := by
    intro st hst x y
    unfold _pyfov_opacity_test_function
    rw [if_pos (by rw [hst]; exact h1)]
  have hli : ∀ st : SweepState, st.wrap.settings = self →
      ∀ x y dx dy : Int, ∀ s : PyObj,
        _pyfov_apply_lighting_function call st x y dx dy s = st := by
    intro st hst x y dx dy s
    unfold _pyfov_apply_lighting_function
    rw [if_pos (by rw [hst]; exact h2)]
  have hrun : ∀ m s : PyObj, ∀ plan : List SweepEvent,
      runSweep call s (initState self m) plan = initState self m := by
    intro m s plan
    exact runSweep_unset call s plan (initState self m) h1 h2
  refine ⟨hop, hli, hrun, ?_, ?_⟩
  · intro a plan hp
    obtain ⟨v, hv⟩ := Option.isSome_iff_exists.mp hp
    rw [circle_eq_sweepReturn call self a plan v hv]
    unfold sweepReturn
    rw [hrun a.map a.src plan]
    rfl
  · intro b plan hp
    obtain ⟨v, hv⟩ := Option.isSome_iff_exists.mp hp
    rw [beam_eq_sweepReturn call self b plan v hv]
    unfold sweepReturn
    rw [hrun b.map b.src plan]
    rfl

/-- C3 witness: a freshly initialised Settings instance swept over a two-cell
plan performs no callback invocation and returns Py_None. -/
theorem unset_capabilities_permissive_witness :
    pyfov_Settings_circle constCall pyfov_Settings_init demoArgs demoPlan
        = (PyRet.py_none, initState pyfov_Settings_init demoArgs.map) :=
  (unset_capabilities_permissive constCall pyfov_Settings_init rfl
      rfl).2.2.2.1 demoArgs demoPlan (by decide)

/-- C4 (counterexample): a circle call with radius -1 is NOT rejected at
sweep entry — parsing succeeds, the radius silently becomes 4294967295
(reduced modulo 2^32 by the "I" format's PyInt_AsUnsignedLongMask), and the
call completes with Py_None. -/
theorem negative_radius_not_rejected :
    parseCircleArgs { map := PyObj.none, src := PyObj.none,
                      source_x := 0, source_y := 0, radius := -1 }
        = Option.some (0, 0, 4294967295) ∧
    (pyfov_Settings_circle constCall pyfov_Settings_init
        { map := PyObj.none, src := PyObj.none,
          source_x := 0, source_y := 0, radius := -1 } []).1
        = PyRet.py_none := by
  constructor <;> rfl

/-- C4 (amended): a negative radius passed to circle or beam is never
rejected; `PyArg_ParseTuple`'s "I" conversion silently reduces it modulo
2^32 (so it is nonnegative afterwards, and for radii in (-2^32, 0) it
becomes the nonzero value radius + 2^32 — not a clamp to zero), and the call
proceeds into the sweep. -/
theorem negative_radius_silently_wrapped (call : Interp)
    (self : pyfov_Settings) (a : CircleArgs) (b : BeamArgs)
    (planc planb : List SweepEvent)
    (hax : -(2 ^ 31) ≤ a.source_x ∧ a.source_x < 2 ^ 31)
    (hay : -(2 ^ 31) ≤ a.source_y ∧ a.source_y < 2 ^ 31)
    (har : a.radius < 0)
    (hbx : -(2 ^ 31) ≤ b.source_x ∧ b.source_x < 2 ^ 31)
    (hby : -(2 ^ 31) ≤ b.source_y ∧ b.source_y < 2 ^ 31)
    (_hbr : b.radius < 0) :
    parseCircleArgs a
        = Option.some (a.source_x, a.source_y, a.radius % 2 ^ 32) ∧
    0 ≤ a.radius % 2 ^ 32 ∧
    (-(2 ^ 32) < a.radius →
      a.radius % 2 ^ 32 = a.radius + 2 ^ 32 ∧ a.radius % 2 ^ 32 ≠ 0) ∧
    pyfov_Settings_circle call self a planc
        = sweepReturn call self a.map a.src planc ∧
    parseBeamArgs b
        = Option.some (b.source_x, b.source_y, b.radius % 2 ^ 32,
            parse_I b.direction) ∧
    pyfov_Settings_beam call self b planb
        = sweepReturn call self b.map b.src planb := by
  have hpa : parseCircleArgs a
      = Option.some (a.source_x, a.source_y, a.radius % 2 ^ 32) := by
    unfold parseCircleArgs parse_i parse_I
    rw [if_pos hax, if_pos hay]
  have hpb : parseBeamArgs b
      = Option.some (b.source_x, b.source_y, b.radius % 2 ^ 32,
          parse_I b.direction) := by
    unfold parseBeamArgs parse_i
    rw [if_pos hbx, if_pos hby]
    rfl
  refine ⟨hpa, ?_, ?_, ?_, hpb, ?_⟩
  · omega
  · intro hbig
    omega
  · exact circle_eq_sweepReturn call self a planc _ hpa
  · exact beam_eq_sweepReturn call self b planb _ hpb

/-- C4 witness: the amended statement evaluated at radius -1 with origin
(0,0): parsing succeeds with the wrapped value. -/
theorem negative_radius_silently_wrapped_witness :
    parseCircleArgs { map := PyObj.none, src := PyObj.none, source_x := 0,
                      source_y := 0, radius := -1 }
      = Option.some (0, 0, (-1 : Int) % 2 ^ 32) ∧
    0 ≤ (-1 : Int) % 2 ^ 32 :=
  ⟨(negative_radius_silently_wrapped constCall pyfov_Settings_init
      { map := PyObj.none, src := PyObj.none, source_x := 0, source_y := 0,
        radius := -1 }
      { demoBeamArgs with radius := -1 } [] []
      (by decide) (by decide) (by decide) (by decide) (by decide)
      (by decide)).1,
   (negative_radius_silently_wrapped constCall pyfov_Settings_init
      { map := PyObj.none, src := PyObj.none, source_x := 0, source_y := 0,
        radius := -1 }
      { demoBeamArgs with radius := -1 } [] []
      (by decide) (by decide) (by decide) (by decide) (by decide)
      (by decide)).2.1⟩

/-- C5 (code-bug demonstration): the public Settings surface exposes a
working setter only for the opacity capability.  The getset table contains
exactly the one entry "opacity_test_function"; assigning
`apply_lighting_function` on a Settings instance raises AttributeError (the
type has no setter for it and no instance dictionary), so the lighting
capability can never be installed from Python, even though the opacity
setter does replace the stored reference with the supplied value and the
getter reads back exactly the value last set. -/
theorem no_apply_lighting_setter :
    settingsSetAttr pyfov_Settings_init "apply_lighting_function"
        (PyObj.obj 5) = Option.none ∧
    pyfov_Settings_properties = ["opacity_test_function"] ∧
    (∀ self : pyfov_Settings, ∀ cb : PyObj,
        settingsSetAttr self "opacity_test_function" cb
          = Option.some { self with opacity_test_function := cb }) ∧
    (∀ self : pyfov_Settings, ∀ cb : PyObj,
        pyfov_Settings_get_opacity_test_function
          (pyfov_Settings_set_opacity_test_function self cb) = cb) := by
  refine ⟨by rfl, rfl, fun self cb => by rfl, fun self cb => rfl⟩

/-- C6: every callback invocation a sweep performs uses exactly the argument
tuple `(context, x, y)` for the opacity capability and
`(context, x, y, dx, dy, source)` for the lighting capability, where the
context (map) and source objects are the very objects passed to
`circle`/`beam`, forwarded verbatim. -/
theorem callbacks_receive_verbatim_args (call : Interp)
    (self : pyfov_Settings) (a : CircleArgs) (b : BeamArgs)
    (planc planb : List SweepEvent) :
    (∀ c ∈ ((pyfov_Settings_circle call self a planc).2).trace,
        goodRecord a.map a.src self.opacity_test_function
          self.apply_lighting_function c) ∧
    (∀ c ∈ ((pyfov_Settings_beam call self b planb).2).trace,
        goodRecord b.map b.src self.opacity_test_function
          self.apply_lighting_function c) := by
  constructor
  · cases hp : parseCircleArgs a with
    | none =>
        unfold pyfov_Settings_circle
        rw [hp]
        intro c hc
        exact absurd hc (List.not_mem_nil c)
    | some v =>
        rw [circle_eq_sweepReturn call self a planc v hp]
        intro c hc
        exact runSweep_good call a.src planc a.map
          self.opacity_test_function self.apply_lighting_function
          (initState self a.map) rfl rfl rfl (by intro c' hc'; exact absurd hc' (List.not_mem_nil c'))
          c hc
  · cases hp : parseBeamArgs b with
    | none =>
        unfold pyfov_Settings_beam
        rw [hp]
        intro c hc
        exact absurd hc (List.not_mem_nil c)
    | some v =>
        rw [beam_eq_sweepReturn call self b planb v hp]
        intro c hc
        exact runSweep_good call b.src planb b.map
          self.opacity_test_function self.apply_lighting_function
          (initState self b.map) rfl rfl rfl (by intro c' hc'; exact absurd hc' (List.not_mem_nil c'))
          c hc

/-- C6 witness: the first invocation performed at the concrete scenario is
the opacity callback applied verbatim to (map, 1, 0). -/
theorem callbacks_receive_verbatim_args_witness :
    goodRecord demoArgs.map demoArgs.src demoSettings.opacity_test_function
      demoSettings.apply_lighting_function
      { callee := PyObj.obj 1,
        args := [PyObj.obj 2, PyObj.int 1, PyObj.int 0],
        result := PyResult.val (PyObj.int 0) } :=
  (callbacks_receive_verbatim_args constCall demoSettings demoArgs
      demoBeamArgs demoPlan demoPlan).1
    { callee := PyObj.obj 1,
      args := [PyObj.obj 2, PyObj.int 1, PyObj.int 0],
      result := PyResult.val (PyObj.int 0) } (by decide)

/-- C7: a freshly created Settings instance has the documented defaults:
shape CIRCLE, corner peek NOPEEK, opaque-apply NOAPPLY, both capability
slots unset (Py_None). -/
theorem settings_init_defaults :
    pyfov_Settings_init.settings.shape = FovShape.circle ∧
    pyfov_Settings_init.settings.corner_peek = FovCornerPeek.nopeek ∧
    pyfov_Settings_init.settings.opaq_apply = FovOpaqApply.noapply ∧
    pyfov_Settings_init.opacity_test_function = PyObj.none ∧
    pyfov_Settings_init.apply_lighting_function = PyObj.none :=
  ⟨rfl, rfl, rfl, rfl, rfl⟩

/-- C8: a circle or beam call leaves the Settings value unchanged — for
every interpreter behaviour (including callbacks that raise) and every
engine visitation, the Settings reference held by the sweep's map_wrapper at
return is exactly the object the call started with; the wrapper itself is a
stack local that does not survive the call. -/
theorem sweep_preserves_settings (call : Interp) (self : pyfov_Settings)
    (a : CircleArgs) (b : BeamArgs) (planc planb : List SweepEvent) :
    ((pyfov_Settings_circle call self a planc).2).wrap.settings = self ∧
    ((pyfov_Settings_beam call self b planb).2).wrap.settings = self := by
  constructor
  · cases hp : parseCircleArgs a with
    | none =>
        unfold pyfov_Settings_circle
        rw [hp]
        rfl
    | some v =>
        rw [circle_eq_sweepReturn call self a planc v hp]
        exact (runSweep_fields call a.src planc (initState self a.map)).1
  · cases hp : parseBeamArgs b with
    | none =>
        unfold pyfov_Settings_beam
        rw [hp]
        rfl
    | some v =>
        rw [beam_eq_sweepReturn call self b planb v hp]
        exact (runSweep_fields call b.src planb (initState self b.map)).1

/-- C9: for every configuration (shape, corner-peek policy, opaque-apply
policy via the settings record) and every opacity oracle and radius, the
sweep engine classifies the origin cell itself visible — its own opacity
plays no role (the origin has an empty sightline and an empty corner path,
and lies inside every shape boundary). -/
theorem origin_always_visible (s : fov_settings_type)
    (opacityAt : Int → Int → Bool) (r : Nat) (ox oy : Int) :
    circleVisible s opacityAt r ox oy ox oy = true := by
  have h1 : visibleCell opacityAt ox oy ox oy = true := by
    simp [visibleCell, sightline, cheb, sub_self]
  have h2 : cornerBlocked s.corner_peek opacityAt ox oy 0 0 = false := by
    cases hcp : s.corner_peek with
    | peek => rfl
    | nopeek =>
        simp [cornerBlocked, pathCells, sightline, zipPairs, cheb]
  have h3 : inRadius s.shape r 0 0 = true := by
    cases hs : s.shape with
    | square => simp [inRadius, cheb]
    | circle =>
        simp [inRadius]
        positivity
    | circle_precalculate =>
        simp [inRadius]
        positivity
    | octagon =>
        simp [inRadius, cheb]
        positivity
  simp [circleVisible, sub_self, h1, h2, h3]

/-- C10: when the opacity callback returns a non-integer object, the adapter
silently treats the cell as blocking: `PyInt_AsLong` yields the error value
-1, whose C bool cast is true; the fault flag is not set and no exception is
recorded, so the sweep continues and the enclosing circle call reports
success. -/
theorem nonint_result_treated_as_blocking (call : Interp)
    (self : pyfov_Settings) (a : CircleArgs) (x y : Int) (r : PyObj)
    (hp : (parseCircleArgs a).isSome = true)
    (hset : self.opacity_test_function ≠ PyObj.none)
    (hcall : call self.opacity_test_function
        [a.map, PyObj.int x, PyObj.int y] = PyResult.val r)
    (hnonint : ∀ n : Int, r ≠ PyObj.int n) :
    PyInt_AsLong r = -1 ∧
    (_pyfov_opacity_test_function call (initState self a.map) x y).1
        = true ∧
    ((_pyfov_opacity_test_function call
        (initState self a.map) x y).2).wrap.threw_exception = false ∧
    ((_pyfov_opacity_test_function call
        (initState self a.map) x y).2).pending = Option.none ∧
    (pyfov_Settings_circle call self a [SweepEvent.opacity x y]).1
        = PyRet.py_none := by
  have hPIL : PyInt_AsLong r = -1 := by
    cases r with
    | none => rfl
    | int n => exact absurd rfl (hnonint n)
    | obj id => rfl
  have hstep : _pyfov_opacity_test_function call (initState self a.map) x y
      = (true,
         { wrap := { orig_map := a.map, settings := self,
                     threw_exception := false },
           pending := Option.none,
           trace := [{ callee := self.opacity_test_function,
                       args := [a.map, PyObj.int x, PyObj.int y],
                       result := PyResult.val r }] }) := by
    unfold _pyfov_opacity_test_function
    simp only [initState]
    rw [if_neg hset, hcall]
    simp [hPIL]
  obtain ⟨v, hv⟩ := Option.isSome_iff_exists.mp hp
  refine ⟨hPIL, by rw [hstep], by rw [hstep], by rw [hstep], ?_⟩
  rw [circle_eq_sweepReturn call self a [SweepEvent.opacity x y] v hv]
  unfold sweepReturn
  have hrun : runSweep call a.src (initState self a.map)
      [SweepEvent.opacity x y]
      = (_pyfov_opacity_test_function call (initState self a.map) x y).2 := by
    simp only [runSweep]
  rw [hrun, hstep]
  rfl

/-- C10 witness: a callback returning the non-integer object #7 at cell
(0,0) is counted blocking, sets no fault, and the circle call succeeds. -/
theorem nonint_result_treated_as_blocking_witness :
    PyInt_AsLong (PyObj.obj 7) = -1 ∧
    (_pyfov_opacity_test_function constObjCall
        (initState demoSettings demoArgs.map) 0 0).1 = true ∧
    ((_pyfov_opacity_test_function constObjCall
        (initState demoSettings demoArgs.map) 0 0).2).wrap.threw_exception
        = false ∧
    ((_pyfov_opacity_test_function constObjCall
        (initState demoSettings demoArgs.map) 0 0).2).pending
        = Option.none ∧
    (pyfov_Settings_circle constObjCall demoSettings demoArgs
        [SweepEvent.opacity 0 0]).1 = PyRet.py_none :=
  nonint_result_treated_as_blocking constObjCall demoSettings demoArgs 0 0
    (PyObj.obj 7) (by decide) (by decide) rfl
    (by intro n h; exact PyObj.noConfusion h)
